import Mathlib

/-!
Shallow embedding of the LMS (library management system) subscription,
targeting, notification fan-out, availability projector and borrow
publisher subsystems, with theorems checking the specification's claims
against the code.

Modelling conventions:
- Mongo documents become Lean structures; a collection is a `List` of
  documents in insertion order; `findOne` is `List.find?`; mutating the
  found document and saving it is `replaceFirst`.
- JS string falsiness (empty string) guards validation branches.
- Dates are `Nat` ticks passed in explicitly.
- HTTP responses are modelled by their status code plus the new store.
-/

/-- Replace the first element satisfying `p` by applying `f`; models
loading a document with `findOne` and saving a mutated copy back. -/
def replaceFirst (p : α → Bool) (f : α → α) : List α → List α
  | [] => []
  | a :: as => if p a then f a :: as else a :: replaceFirst p f as

/-! ## Regular-expression model

`getTargetedSubscribers` and `getCategorySubscribers` match category names
with `new RegExp("^" ++ name ++ "$", "i")`, interpolating the raw name
into the pattern without escaping.  We model the JS regex dialect on the
constructs that can arise from such patterns: literal characters, `.`,
`*`, `+`, `?`, alternation `|`, groups `(...)` and escapes `\c`.  The
characters `[`, `{`, `^`, `$` inside a name are outside the modelled
subset and are conservatively treated as unparseable; no theorem below
depends on their behaviour.  A pattern that fails to parse models a
`SyntaxError` thrown by the `RegExp` constructor.  The `i` flag is
modelled by lowering both pattern and subject characters. -/

inductive Rx where
  | fail
  | eps
  | chr (c : Char)
  | dot
  | seq (a b : Rx)
  | alt (a b : Rx)
  | star (a : Rx)
deriving Repr, DecidableEq

/-- Does the regex accept the empty string? -/
def Rx.nullable : Rx → Bool
  | .fail => false
  | .eps => true
  | .chr _ => false
  | .dot => false
  | .seq a b => a.nullable && b.nullable
  | .alt a b => a.nullable || b.nullable
  | .star _ => true

/-- Brzozowski derivative of a regex by one character. -/
def Rx.deriv : Rx → Char → Rx
  | .fail, _ => .fail
  | .eps, _ => .fail
  | .chr c, d => if c = d then .eps else .fail
  | .dot, _ => .eps
  | .seq a b, d =>
      if a.nullable then .alt (.seq (a.deriv d) b) (b.deriv d)
      else .seq (a.deriv d) b
  | .alt a b, d => .alt (a.deriv d) (b.deriv d)
  | .star a, d => .seq (a.deriv d) (.star a)

/-- Full-string regex match (the pattern is anchored `^...$`). -/
def rxMatch (r : Rx) (s : List Char) : Bool :=
  (s.foldl Rx.deriv r).nullable

/-- Is the character one of the postfix quantifiers? -/
def isQuant (c : Char) : Bool :=
  c = '*' || c = '+' || c = '?'

mutual

/-- Parse one atom: a literal, `.`, an escape, or a group. -/
def parseAtom : Nat → List Char → Option (Rx × List Char)
  | 0, _ => none
  | _ + 1, [] => none
  | fuel + 1, c :: cs =>
    if c = '(' then
      match parseAlt fuel cs with
      | some (r, d :: rest) => if d = ')' then some (r, rest) else none
      | _ => none
    else if c = '\\' then
      match cs with
      | [] => none
      | d :: rest => some (.chr d.toLower, rest)
    else if c = '.' then some (.dot, cs)
    else if c = ')' || c = '|' || isQuant c ||
            c = '[' || c = '{' || c = '^' || c = '$' then none
    else some (.chr c.toLower, cs)

/-- Parse an atom followed by at most one quantifier. -/
def parsePiece : Nat → List Char → Option (Rx × List Char)
  | 0, _ => none
  | fuel + 1, cs =>
    match parseAtom fuel cs with
    | none => none
    | some (r, rest) =>
      match rest with
      | c :: rest2 =>
        if c = '*' then some (.star r, rest2)
        else if c = '+' then some (.seq r (.star r), rest2)
        else if c = '?' then some (.alt r .eps, rest2)
        else some (r, rest)
      | [] => some (r, rest)

/-- Parse a concatenation of pieces, stopping at `)`, `|` or the end. -/
def parseCat : Nat → List Char → Option (Rx × List Char)
  | 0, _ => none
  | fuel + 1, cs =>
    match cs with
    | [] => some (.eps, [])
    | c :: _ =>
      if c = ')' || c = '|' then some (.eps, cs)
      else
        match parsePiece fuel cs with
        | none => none
        | some (r, rest) =>
          match parseCat fuel rest with
          | none => none
          | some (r2, rest2) => some (.seq r r2, rest2)

/-- Parse an alternation of concatenations. -/
def parseAlt : Nat → List Char → Option (Rx × List Char)
  | 0, _ => none
  | fuel + 1, cs =>
    match parseCat fuel cs with
    | none => none
    | some (r, rest) =>
      match rest with
      | c :: rest2 =>
        if c = '|' then
          match parseAlt fuel rest2 with
          | none => none
          | some (r2, rest3) => some (.alt r r2, rest3)
        else some (r, rest)
      | [] => some (r, rest)

end

/-- Compile the raw category name into the regex the code builds with
`new RegExp("^" ++ name ++ "$", "i")`; `none` models the constructor
throwing on an invalid pattern. -/
def ciRegex (pat : String) : Option Rx :=
  match parseAlt (4 * (pat.length + 1)) pat.data with
  | some (r, []) => some r
  | _ => none

/-- Case-insensitive anchored test of the compiled pattern against a
stored category name. -/
def ciTest (r : Rx) (stored : String) : Bool :=
  rxMatch r (stored.data.map Char.toLower)

example : (ciRegex "science").map (fun r => ciTest r "Science") = some true := by decide

example : (ciRegex "a+").map (fun r => ciTest r "a+") = some false := by decide

/-! ## Subscription store

`CategorySubscription` and `BookSubscription` documents and the
controller operations on them (subscription controller of the
notification service). -/

/-- A `CategorySubscription` document. -/
structure CategorySub where
  userId : String
  userEmail : String
  userName : String
  categoryId : String
  categoryName : String
  isActive : Bool
  subscribedAt : Nat
deriving Repr, DecidableEq

/-- A `BookSubscription` document. -/
structure BookSub where
  userId : String
  userEmail : String
  userName : String
  bookId : String
  bookTitle : String
  bookCategory : String
  isActive : Bool
  subscribedAt : Nat
deriving Repr, DecidableEq

/-- The two subscription collections. -/
structure SubStore where
  cats : List CategorySub
  books : List BookSub
deriving Repr, DecidableEq

/-- Body of a subscribe-to-category request; an absent `userName` is the
empty string (the code maps it through `userName OR empty`). -/
structure CatSubReq where
  userId : String
  userEmail : String
  userName : String
  categoryId : String
  categoryName : String
deriving Repr, DecidableEq

/-- Body of a subscribe-to-book request. -/
structure BookSubReq where
  userId : String
  userEmail : String
  userName : String
  bookId : String
  bookTitle : String
  bookCategory : String
deriving Repr, DecidableEq

/-- Key predicate for a user's subscription to a category. -/
def catKey (u cid : String) (c : CategorySub) : Bool :=
  c.userId == u && c.categoryId == cid

/-- Key predicate for a user's subscription to a book. -/
def bookKey (u bid : String) (b : BookSub) : Bool :=
  b.userId == u && b.bookId == bid

/-- `subscribeToCategory`: validate, then 409 on an active existing row,
reactivate (refreshing `subscribedAt`) on an inactive existing row, else
create a new active row. Returns the status code and the new store. -/
def subscribeToCategory (now : Nat) (r : CatSubReq) (s : SubStore) :
    Nat × SubStore :=
  if r.userId = "" || r.userEmail = "" || r.categoryId = "" || r.categoryName = "" then
    (400, s)
  else
    match s.cats.find? (catKey r.userId r.categoryId) with
    | some ex =>
      if ex.isActive then (409, s)
      else
        let cats2 := replaceFirst (catKey r.userId r.categoryId)
          (fun c => { c with isActive := true, subscribedAt := now }) s.cats
        (200, { s with cats := cats2 })
    | none =>
      let row : CategorySub :=
        { userId := r.userId, userEmail := r.userEmail, userName := r.userName,
          categoryId := r.categoryId, categoryName := r.categoryName,
          isActive := true, subscribedAt := now }
      (201, { s with cats := s.cats ++ [row] })

/-- `unsubscribeFromCategory`: validate, 404 when no row exists for the
pair, else soft delete by clearing `isActive`. -/
def unsubscribeFromCategory (u cid : String) (s : SubStore) : Nat × SubStore :=
  if u = "" || cid = "" then (400, s)
  else
    match s.cats.find? (catKey u cid) with
    | none => (404, s)
    | some _ =>
      let cats2 := replaceFirst (catKey u cid)
        (fun c => { c with isActive := false }) s.cats
      (200, { s with cats := cats2 })

/-- `subscribeToBook`: same shape as `subscribeToCategory` on the book
relation. -/
def subscribeToBook (now : Nat) (r : BookSubReq) (s : SubStore) :
    Nat × SubStore :=
  if r.userId = "" || r.userEmail = "" || r.bookId = "" || r.bookTitle = "" then
    (400, s)
  else
    match s.books.find? (bookKey r.userId r.bookId) with
    | some ex =>
      if ex.isActive then (409, s)
      else
        let books2 := replaceFirst (bookKey r.userId r.bookId)
          (fun b => { b with isActive := true, subscribedAt := now }) s.books
        (200, { s with books := books2 })
    | none =>
      let row : BookSub :=
        { userId := r.userId, userEmail := r.userEmail, userName := r.userName,
          bookId := r.bookId, bookTitle := r.bookTitle, bookCategory := r.bookCategory,
          isActive := true, subscribedAt := now }
      (201, { s with books := s.books ++ [row] })

/-- `unsubscribeFromBook`: soft delete on the book relation. -/
def unsubscribeFromBook (u bid : String) (s : SubStore) : Nat × SubStore :=
  if u = "" || bid = "" then (400, s)
  else
    match s.books.find? (bookKey u bid) with
    | none => (404, s)
    | some _ =>
      let books2 := replaceFirst (bookKey u bid)
        (fun b => { b with isActive := false }) s.books
      (200, { s with books := books2 })

/-! ## Targeting resolver -/

/-- The three escalation levels of a targeted subscriber. -/
inductive SubType where
  | category
  | book
  | both
deriving Repr, DecidableEq, BEq

/-- A resolved target (the value stored in the dedup `Map`). -/
structure TargetedSubscriber where
  userId : String
  userEmail : String
  userName : String
  subscriptionType : SubType
  categoryId : Option String
  categoryName : Option String
  bookId : Option String
  bookTitle : Option String
deriving Repr, DecidableEq

/-- JS `Map.set`: update the value in place when the key exists
(preserving insertion order), else append. -/
def mapSet (k : String) (v : TargetedSubscriber) :
    List (String × TargetedSubscriber) → List (String × TargetedSubscriber)
  | [] => [(k, v)]
  | (k2, v2) :: rest =>
    if k2 = k then (k2, v) :: rest else (k2, v2) :: mapSet k v rest

/-- JS `Map.has`. -/
def mapHas (k : String) (m : List (String × TargetedSubscriber)) : Bool :=
  m.any (fun p => p.1 == k)

/-- Mutating the object obtained from `Map.get` in place. -/
def mapUpdate (k : String) (f : TargetedSubscriber → TargetedSubscriber) :
    List (String × TargetedSubscriber) → List (String × TargetedSubscriber)
  | [] => []
  | (k2, v2) :: rest =>
    if k2 = k then (k2, f v2) :: rest else (k2, v2) :: mapUpdate k f rest

/-- Pass-1 entry built from a category subscription. -/
def catEntry (c : CategorySub) : TargetedSubscriber :=
  { userId := c.userId, userEmail := c.userEmail, userName := c.userName,
    subscriptionType := .category,
    categoryId := some c.categoryId, categoryName := some c.categoryName,
    bookId := none, bookTitle := none }

/-- Pass-1 step: insert every matching category subscriber. -/
def catStep (m : List (String × TargetedSubscriber)) (c : CategorySub) :
    List (String × TargetedSubscriber) :=
  mapSet c.userId (catEntry c) m

/-- Pass-2 upgrade of an already-present entry: mark `both` and attach
the book fields. -/
def bookUpgrade (b : BookSub) (t : TargetedSubscriber) : TargetedSubscriber :=
  { t with subscriptionType := .both, bookId := some b.bookId, bookTitle := some b.bookTitle }

/-- Fresh pass-2 entry built from a book subscription. -/
def bookEntry (b : BookSub) : TargetedSubscriber :=
  { userId := b.userId, userEmail := b.userEmail, userName := b.userName,
    subscriptionType := .book, categoryId := none, categoryName := none,
    bookId := some b.bookId, bookTitle := some b.bookTitle }

/-- Pass-2 step on the dedup map. -/
def bookStep (m : List (String × TargetedSubscriber)) (b : BookSub) :
    List (String × TargetedSubscriber) :=
  if mapHas b.userId m then mapUpdate b.userId (bookUpgrade b) m
  else mapSet b.userId (bookEntry b) m

/-- `getTargetedSubscribers`: two-pass dedup resolver.  A `bookId` that
is absent or empty (JS falsy) skips pass 2; a category name whose
interpolated pattern does not compile makes the whole call land in the
catch branch, returning the empty list. -/
def getTargetedSubscribers (categoryName : String) (bookId : Option String)
    (s : SubStore) : List TargetedSubscriber :=
  match ciRegex categoryName with
  | none => []
  | some r =>
    let catSubs := s.cats.filter (fun c => ciTest r c.categoryName && c.isActive)
    let m1 := catSubs.foldl catStep []
    let m2 :=
      match bookId with
      | none => m1
      | some bid =>
        if bid = "" then m1
        else
          let bookSubs := s.books.filter (fun (b : BookSub) => b.bookId == bid && b.isActive)
          bookSubs.foldl bookStep m1
    m2.map Prod.snd

/-! ## Availability projector (book service event subscriber)

`handleBookBorrowed` / `handleBookReturned` load a book by `bookId`,
mutate `availableCopies` and `status`, and save.  Copies are modelled as
`Int` (JS numbers used only with integer arithmetic here). -/

/-- A `Book` document, restricted to the fields the projector touches. -/
structure Book where
  bookId : String
  availableCopies : Int
  totalCopies : Int
  status : String
deriving Repr, DecidableEq

/-- The mutation a `BookBorrowed` event applies to the loaded book (only
reached when copies remain): decrement, and flip the status to
`unavailable` when the new count is zero. -/
def borrowedBook (b : Book) : Book :=
  let b2 := { b with availableCopies := b.availableCopies - 1 }
  if b2.availableCopies = 0 then { b2 with status := "unavailable" } else b2

/-- Projector step for a `BookBorrowed` event: drop when the book is
missing or has no copies, else save the mutated document. -/
def handleBookBorrowed (books : List Book) (bid : String) : List Book :=
  match books.find? (fun b => b.bookId == bid) with
  | none => books
  | some b =>
    if b.availableCopies ≤ 0 then books
    else replaceFirst (fun x => x.bookId == bid) (fun _ => borrowedBook b) books

/-- The mutation a `BookReturned` event applies to the loaded book:
increment capped at `totalCopies`, and set the status to `available`
when copies remain. -/
def returnedBook (b : Book) : Book :=
  let b2 := if b.availableCopies < b.totalCopies then { b with availableCopies := b.availableCopies + 1 } else b
  if b2.availableCopies > 0 then { b2 with status := "available" } else b2

/-- Projector step for a `BookReturned` event: drop when the book is
missing, else save the mutated document. -/
def handleBookReturned (books : List Book) (bid : String) : List Book :=
  match books.find? (fun b => b.bookId == bid) with
  | none => books
  | some b => replaceFirst (fun x => x.bookId == bid) (fun _ => returnedBook b) books

/-- The two event kinds the projector consumes. -/
inductive BookEvent where
  | borrowed (bid : String)
  | returned (bid : String)
deriving Repr, DecidableEq

/-- Dispatch one event to its handler. -/
def applyBookEvent (books : List Book) : BookEvent → List Book
  | .borrowed bid => handleBookBorrowed books bid
  | .returned bid => handleBookReturned books bid

/-- Process a finite event sequence one at a time (each read-modify-write
completes before the next begins). -/
def runBookEvents (books : List Book) (evs : List BookEvent) : List Book :=
  evs.foldl applyBookEvent books

/-- Availability bounds invariant for a single book. -/
def availOk (b : Book) : Prop :=
  0 ≤ b.availableCopies ∧ b.availableCopies ≤ b.totalCopies

instance (b : Book) : Decidable (availOk b) := by
  unfold availOk; infer_instance

/-! ## Notification fan-out -/

/-- A `Notification` row as built by `createBatchNotifications`
(`metadata` carries no logic and is omitted). -/
structure Notification where
  notificationId : String
  userId : String
  userEmail : String
  type : String
  title : String
  message : String
  relatedBookId : Option String
  relatedBookTitle : Option String
  relatedCategoryId : Option String
  relatedCategoryName : Option String
  priority : String
deriving Repr, DecidableEq

/-- The per-event constant part of a notification batch. -/
structure NotificationData where
  type : String
  title : String
  message : String
  relatedBookId : Option String
  relatedBookTitle : Option String
  relatedCategoryId : Option String
  relatedCategoryName : Option String
  priority : Option String
deriving Repr, DecidableEq

/-- Row built for one subscriber; `newId` models the
`NOTIF-Date.now-uuid` generator indexed by batch position. -/
def notifRow (newId : Nat → String) (nd : NotificationData) (i : Nat)
    (sub : TargetedSubscriber) : Notification :=
  { notificationId := newId i, userId := sub.userId, userEmail := sub.userEmail,
    type := nd.type, title := nd.title, message := nd.message,
    relatedBookId := nd.relatedBookId, relatedBookTitle := nd.relatedBookTitle,
    relatedCategoryId := nd.relatedCategoryId,
    relatedCategoryName := nd.relatedCategoryName,
    priority := nd.priority.getD "normal" }

/-- `createBatchNotifications`: one row per subscriber, inserted in a
single `insertMany` call. -/
def createBatchNotifications (newId : Nat → String)
    (subs : List TargetedSubscriber) (nd : NotificationData) : List Notification :=
  subs.enum.map (fun p => notifRow newId nd p.1 p.2)

/-- Payload of a `BOOK_ADDED` event. -/
structure BookAddedData where
  bookId : String
  title : String
  author : String
  category : String
  coverImageUrl : String
deriving Repr, DecidableEq

/-- Everything `handleBookAdded` produces: the persisted rows, the
outcome of each independent email attempt in order, and the audit
counters. -/
structure BookAddedOutcome where
  notifications : List Notification
  emailAttempts : List Bool
  subscribersNotified : Nat
  emailsSent : Nat
deriving Repr, DecidableEq

/-- Notification content for a `BOOK_ADDED` event. -/
def bookAddedNotificationData (d : BookAddedData) : NotificationData :=
  { type := "BOOK_ADDED", title := "New Book: " ++ d.title,
    message := "A new book \"" ++ d.title ++ "\" by " ++ d.author ++
      " has been added to the " ++ d.category ++ " category.",
    relatedBookId := some d.bookId, relatedBookTitle := some d.title,
    relatedCategoryId := none, relatedCategoryName := some d.category,
    priority := some "normal" }

/-- `handleBookAdded`: resolve targets, create one notification row per
target in one batch, then attempt one email per target; `emailOk` is the
outcome oracle of the email sink (the send helper catches its own errors
and returns a boolean, so one failure aborts nothing). -/
def handleBookAdded (newId : Nat → String) (emailOk : TargetedSubscriber → Bool)
    (s : SubStore) (d : BookAddedData) : BookAddedOutcome :=
  let subs := getTargetedSubscribers d.category (some d.bookId) s
  if subs.length = 0 then
    { notifications := [], emailAttempts := [], subscribersNotified := 0, emailsSent := 0 }
  else
    let notifs := createBatchNotifications newId subs (bookAddedNotificationData d)
    let attempts := subs.map emailOk
    { notifications := notifs, emailAttempts := attempts,
      subscribersNotified := subs.length, emailsSent := attempts.count true }

/-- Payload of a `BOOK_UPDATED` event (`category` is already defaulted to
the empty string by the handler when absent). -/
structure BookUpdatedData where
  bookId : String
  title : String
  author : String
  category : String
deriving Repr, DecidableEq

/-- Notification content for a `BOOK_UPDATED` event. -/
def bookUpdatedNotificationData (d : BookUpdatedData) : NotificationData :=
  { type := "BOOK_UPDATED", title := "Book Updated: " ++ d.title,
    message := "The book \"" ++ d.title ++ "\" that you are following has been updated.",
    relatedBookId := some d.bookId, relatedBookTitle := some d.title,
    relatedCategoryId := none, relatedCategoryName := none,
    priority := some "low" }

/-- Does a resolved target follow the book itself? -/
def isBookFollower (t : TargetedSubscriber) : Bool :=
  t.subscriptionType == SubType.book || t.subscriptionType == SubType.both

/-- `handleBookUpdated`: resolve, keep only book-level followers, and
create their notification rows (no rows at all when none remain). -/
def handleBookUpdated (newId : Nat → String) (s : SubStore) (d : BookUpdatedData) :
    List Notification :=
  let subs := getTargetedSubscribers d.category (some d.bookId) s
  let bookSubs := subs.filter isBookFollower
  if bookSubs.length = 0 then []
  else createBatchNotifications newId bookSubs (bookUpdatedNotificationData d)

/-! ## Borrow service: publisher isolation -/

/-- Connection state of the redis publisher client. -/
structure PubState where
  hasClient : Bool
  isConnected : Bool
deriving Repr, DecidableEq

/-- Wire payload of a `BookBorrowed` event. -/
structure BorrowedEvent where
  bookId : String
  userId : String
  email : String
  borrowerName : String
  bookTitle : String
  dueDate : Int
  borrowId : String
  borrowDate : Nat
deriving Repr, DecidableEq

/-- `publishBookBorrowed`: when the client is absent or disconnected,
log and return `false` locally without publishing; otherwise publish and
return `true`.  The result is a plain value, never an exception. -/
def publishBookBorrowed (ps : PubState) (ev : BorrowedEvent) :
    Bool × List BorrowedEvent :=
  if !ps.isConnected || !ps.hasClient then (false, [])
  else (true, [ev])

/-- A `Borrow` document. -/
structure BorrowRec where
  borrowId : String
  userId : String
  bookId : String
  email : String
  borrowerName : String
  borrowDate : Nat
  dueDate : Int
  status : String
deriving Repr, DecidableEq

/-- Request body of the borrow endpoint; `borrowDuration` is the already
parsed integer, with `0` standing for the JS-falsy parse results. -/
structure BorrowReq where
  userId : String
  bookId : String
  email : String
  borrowerName : String
  borrowDuration : Int
deriving Repr, DecidableEq

/-- External collaborators of `borrowBook`: whether the auth service
verifies the email, and the title the book service returns (`none` when
the lookup fails, in which case the handler falls back). -/
structure BorrowEnv where
  emailVerified : Bool
  bookTitleLookup : Option String
deriving Repr, DecidableEq

/-- Local part of the email address, as `email.split(at)[0]`. -/
def emailLocalPart (email : String) : String :=
  (email.splitOn "@").headD ""

/-- `borrowBook`: validate, verify the email, reject duplicate active
borrows, persist the record, fire-and-forget publish (its boolean result
is ignored), and answer 201.  Returns the status code, the borrow
collection and the events that actually reached the broker. -/
def borrowBook (env : BorrowEnv) (ps : PubState) (now : Nat) (newId : String)
    (req : BorrowReq) (borrows : List BorrowRec) :
    Nat × List BorrowRec × List BorrowedEvent :=
  if req.userId = "" || req.bookId = "" || req.email = "" then (400, borrows, [])
  else if !env.emailVerified then (400, borrows, [])
  else
    match borrows.find? (fun b =>
        b.userId == req.userId && b.bookId == req.bookId && b.status == "BORROWED") with
    | some _ => (400, borrows, [])
    | none =>
      let duration := min (if req.borrowDuration = 0 then 14 else req.borrowDuration) 14
      let dueDate : Int := (now : Int) + duration
      let name := if req.borrowerName = "" then emailLocalPart req.email else req.borrowerName
      let row : BorrowRec :=
        { borrowId := newId, userId := req.userId, bookId := req.bookId,
          email := req.email.toLower, borrowerName := name,
          borrowDate := now, dueDate := dueDate, status := "BORROWED" }
      let title := env.bookTitleLookup.getD "Unknown Book"
      let ev : BorrowedEvent :=
        { bookId := req.bookId, userId := req.userId, email := req.email.toLower,
          borrowerName := row.borrowerName, bookTitle := title,
          dueDate := dueDate, borrowId := newId, borrowDate := row.borrowDate }
      let pub := publishBookBorrowed ps ev
      (201, borrows ++ [row], pub.2)


/-! ## Concrete documents used by scenario conjuncts, witnesses and
counterexamples -/

/-- Convenience constructor for a category subscription document. -/
def catDoc (u cid cn : String) (act : Bool) (t : Nat) : CategorySub :=
  { userId := u, userEmail := u ++ "@mail.io", userName := u,
    categoryId := cid, categoryName := cn, isActive := act, subscribedAt := t }

/-- Convenience constructor for a book subscription document. -/
def bookDoc (u bid bt : String) (act : Bool) (t : Nat) : BookSub :=
  { userId := u, userEmail := u ++ "@mail.io", userName := u,
    bookId := bid, bookTitle := bt, bookCategory := "", isActive := act, subscribedAt := t }

/-- Scenario C book: one of three copies left. -/
def bookX : Book :=
  { bookId := "X", availableCopies := 1, totalCopies := 3, status := "available" }

/-- Scenario C book after the borrow. -/
def bookX0 : Book :=
  { bookId := "X", availableCopies := 0, totalCopies := 3, status := "unavailable" }

/-- Deterministic id generator for witnesses. -/
def witnessId (n : Nat) : String := "NOTIF-" ++ toString n

/-! ## Helper lemmas on lists, `replaceFirst` and the dedup map -/

theorem length_replaceFirst (p : α → Bool) (f : α → α) (l : List α) :
    (replaceFirst p f l).length = l.length := by
  induction l with
  | nil => rfl
  | cons a as ih =>
    unfold replaceFirst
    by_cases h : p a <;> simp [h, ih]

theorem mem_replaceFirst {p : α → Bool} {f : α → α} {l : List α} {x : α}
    (hx : x ∈ replaceFirst p f l) :
    x ∈ l ∨ ∃ a, a ∈ l ∧ p a = true ∧ x = f a := by
  induction l with
  | nil => simp [replaceFirst] at hx
  | cons a as ih =>
    unfold replaceFirst at hx
    by_cases h : p a
    · simp [h] at hx
      rcases hx with rfl | hx
      · exact Or.inr ⟨a, by simp, h, rfl⟩
      · exact Or.inl (by simp [hx])
    · simp [h] at hx
      rcases hx with rfl | hx
      · exact Or.inl (by simp)
      · rcases ih hx with h1 | ⟨b, hb, hpb, rfl⟩
        · exact Or.inl (by simp [h1])
        · exact Or.inr ⟨b, by simp [hb], hpb, rfl⟩

theorem find?_split (p : α → Bool) (l : List α) (a0 : α)
    (h : l.find? p = some a0) :
    ∃ l1 l2, l = l1 ++ a0 :: l2 ∧ (∀ x ∈ l1, p x = false) ∧ p a0 = true ∧
      ∀ f, replaceFirst p f l = l1 ++ f a0 :: l2 := by
  induction l with
  | nil => simp [List.find?] at h
  | cons a as ih =>
    by_cases hpa : p a
    · rw [List.find?_cons_of_pos _ hpa] at h
      rcases Option.some.inj h with rfl
      refine ⟨[], as, rfl, by simp, hpa, ?_⟩
      intro f
      unfold replaceFirst
      simp [hpa]
    · rw [List.find?_cons_of_neg _ hpa] at h
      rcases ih h with ⟨l1, l2, rfl, hl1, hpa0, hrep⟩
      refine ⟨a :: l1, l2, rfl, ?_, hpa0, ?_⟩
      · intro x hx
        rcases List.mem_cons.mp hx with rfl | hx
        · simpa using hpa
        · exact hl1 x hx
      · intro f
        unfold replaceFirst
        simp [hpa, hrep f]

theorem unique_of_filter_le_one {p : α → Bool} {l : List α}
    (h : (l.filter p).length ≤ 1) {a b : α}
    (ha : a ∈ l) (hpa : p a = true) (hb : b ∈ l) (hpb : p b = true) : a = b := by
  have ha2 : a ∈ l.filter p := List.mem_filter.mpr ⟨ha, hpa⟩
  have hb2 : b ∈ l.filter p := List.mem_filter.mpr ⟨hb, hpb⟩
  match hfp : l.filter p with
  | [] => rw [hfp] at ha2; simp at ha2
  | [x] =>
    rw [hfp] at ha2 hb2
    simp at ha2 hb2
    rw [ha2, hb2]
  | x :: y :: t => rw [hfp] at h; simp at h

theorem find?_of_exists {p : α → Bool} {l : List α}
    (h : ∃ a, a ∈ l ∧ p a = true) : ∃ a0, l.find? p = some a0 := by
  rcases h with ⟨a, ha, hpa⟩
  induction l with
  | nil => simp at ha
  | cons x xs ih =>
    by_cases hpx : p x
    · exact ⟨x, List.find?_cons_of_pos _ hpx⟩
    · rw [List.find?_cons_of_neg _ hpx]
      rcases List.mem_cons.mp ha with rfl | ha2
      · exact absurd hpa (by simp [hpx])
      · exact ih ha2

/-! ## Availability projector: invariant preservation -/

theorem availOk_borrowedBook (b : Book) (hb : availOk b)
    (hpos : 0 < b.availableCopies) : availOk (borrowedBook b) := by
  unfold availOk at hb ⊢
  unfold borrowedBook
  by_cases hz : b.availableCopies - 1 = 0
  · simp only [hz]
    simp
    omega
  · simp only []
    rw [if_neg (by simpa using hz)]
    simp
    omega

theorem availOk_returnedBook (b : Book) (hb : availOk b) :
    availOk (returnedBook b) := by
  unfold availOk at hb ⊢
  unfold returnedBook
  by_cases hlt : b.availableCopies < b.totalCopies
  · rw [if_pos hlt]
    by_cases hpos : 0 < b.availableCopies + 1
    · rw [if_pos (by simpa using hpos)]
      simp
      omega
    · rw [if_neg (by simpa using hpos)]
      simp
      omega
  · rw [if_neg hlt]
    by_cases hpos : 0 < b.availableCopies
    · rw [if_pos (by simpa using hpos)]
      simp
      omega
    · rw [if_neg (by simpa using hpos)]
      omega

theorem availOk_handleBookBorrowed (books : List Book) (bid : String)
    (h : ∀ b ∈ books, availOk b) :
    ∀ b2 ∈ handleBookBorrowed books bid, availOk b2 := by
  intro b2 hb2
  unfold handleBookBorrowed at hb2
  split at hb2
  · exact h _ hb2
  · rename_i b hfind
    split at hb2
    · exact h _ hb2
    · rename_i hpos
      rcases mem_replaceFirst hb2 with h1 | ⟨a, _, _, rfl⟩
      · exact h _ h1
      · exact availOk_borrowedBook b (h b (List.mem_of_find?_eq_some hfind)) (by omega)

theorem availOk_handleBookReturned (books : List Book) (bid : String)
    (h : ∀ b ∈ books, availOk b) :
    ∀ b2 ∈ handleBookReturned books bid, availOk b2 := by
  intro b2 hb2
  unfold handleBookReturned at hb2
  split at hb2
  · exact h _ hb2
  · rename_i b hfind
    rcases mem_replaceFirst hb2 with h1 | ⟨a, _, _, rfl⟩
    · exact h _ h1
    · exact availOk_returnedBook b (h b (List.mem_of_find?_eq_some hfind))

theorem availOk_applyBookEvent (books : List Book) (e : BookEvent)
    (h : ∀ b ∈ books, availOk b) :
    ∀ b2 ∈ applyBookEvent books e, availOk b2 := by
  cases e with
  | borrowed bid => exact availOk_handleBookBorrowed books bid h
  | returned bid => exact availOk_handleBookReturned books bid h

theorem availOk_runBookEvents (books : List Book) (evs : List BookEvent)
    (h : ∀ b ∈ books, availOk b) :
    ∀ b2 ∈ runBookEvents books evs, availOk b2 := by
  induction evs generalizing books with
  | nil => exact h
  | cons e evs ih =>
    simp only [runBookEvents, List.foldl_cons]
    exact ih _ (availOk_applyBookEvent books e h)

/-- C2: for every book store satisfying `0 ≤ availableCopies ≤
totalCopies` and every finite sequence of borrow/return events processed
one at a time, the bounds still hold after every step, i.e. after
processing any prefix of the sequence. -/
theorem C2_availability_bounds (books : List Book) (evs : List BookEvent)
    (h : ∀ b ∈ books, availOk b) (n : Nat) :
    ∀ b2 ∈ runBookEvents books (evs.take n), availOk b2 :=
  availOk_runBookEvents books (evs.take n) h

/-- Witness for C2 on a concrete store and event sequence. -/
theorem C2_availability_bounds_witness :
    (∀ b ∈ [bookX], availOk b) ∧
      ∀ b2 ∈ runBookEvents [bookX]
        ([BookEvent.borrowed "X", BookEvent.returned "X", BookEvent.borrowed "X"].take 2),
        availOk b2 :=
  ⟨by decide, C2_availability_bounds [bookX] _ (by decide) 2⟩

theorem borrowedBook_spec (b : Book) :
    (borrowedBook b).availableCopies = b.availableCopies - 1 ∧
    (borrowedBook b).totalCopies = b.totalCopies ∧
    (borrowedBook b).bookId = b.bookId ∧
    ((borrowedBook b).availableCopies = 0 → (borrowedBook b).status = "unavailable") ∧
    ((borrowedBook b).availableCopies ≠ 0 → (borrowedBook b).status = b.status) := by
  unfold borrowedBook
  by_cases hz : b.availableCopies - 1 = 0
  · rw [if_pos (by simpa using hz)]
    simp [hz]
  · rw [if_neg (by simpa using hz)]
    simp [hz]

theorem returnedBook_spec (b : Book) (hle : b.availableCopies ≤ b.totalCopies) :
    (returnedBook b).availableCopies = min (b.availableCopies + 1) b.totalCopies ∧
    (returnedBook b).totalCopies = b.totalCopies ∧
    (returnedBook b).bookId = b.bookId ∧
    (0 < (returnedBook b).availableCopies → (returnedBook b).status = "available") ∧
    ((returnedBook b).availableCopies ≤ 0 → (returnedBook b).status = b.status) := by
  unfold returnedBook
  by_cases hlt : b.availableCopies < b.totalCopies
  · rw [if_pos hlt]
    by_cases hpos : 0 < b.availableCopies + 1
    · rw [if_pos (by simpa using hpos)]
      simp
      omega
    · rw [if_neg (by simpa using hpos)]
      simp
      omega
  · rw [if_neg hlt]
    by_cases hpos : 0 < b.availableCopies
    · rw [if_pos (by simpa using hpos)]
      simp
      omega
    · rw [if_neg (by simpa using hpos)]
      simp
      omega

/-- C3: per-event postconditions of the availability projector.  A
missing book leaves the store unchanged for both events; an exhausted
count drops a borrow silently; otherwise a borrow decrements by exactly
one and flips the status to unavailable exactly when the new count is
zero; a return sets the count to `min (availableCopies + 1) totalCopies`
and the status to available whenever the result is positive; and the
concrete Scenario C run behaves as claimed. -/
theorem C3_projector_postconditions :
    (∀ (books : List Book) (bid : String),
      books.find? (fun x => x.bookId == bid) = none →
        handleBookBorrowed books bid = books ∧ handleBookReturned books bid = books) ∧
    (∀ (books : List Book) (bid : String) (b : Book),
      books.find? (fun x => x.bookId == bid) = some b →
      b.availableCopies = 0 →
        handleBookBorrowed books bid = books) ∧
    (∀ (books : List Book) (bid : String) (b : Book),
      books.find? (fun x => x.bookId == bid) = some b →
      0 < b.availableCopies →
        handleBookBorrowed books bid =
          replaceFirst (fun x => x.bookId == bid) (fun _ => borrowedBook b) books ∧
        (borrowedBook b).availableCopies = b.availableCopies - 1 ∧
        ((borrowedBook b).availableCopies = 0 → (borrowedBook b).status = "unavailable") ∧
        ((borrowedBook b).availableCopies ≠ 0 → (borrowedBook b).status = b.status) ∧
        (borrowedBook b).totalCopies = b.totalCopies ∧ (borrowedBook b).bookId = b.bookId) ∧
    (∀ (books : List Book) (bid : String) (b : Book),
      books.find? (fun x => x.bookId == bid) = some b →
      b.availableCopies ≤ b.totalCopies →
        handleBookReturned books bid =
          replaceFirst (fun x => x.bookId == bid) (fun _ => returnedBook b) books ∧
        (returnedBook b).availableCopies = min (b.availableCopies + 1) b.totalCopies ∧
        (0 < (returnedBook b).availableCopies → (returnedBook b).status = "available") ∧
        ((returnedBook b).availableCopies ≤ 0 → (returnedBook b).status = b.status) ∧
        (returnedBook b).totalCopies = b.totalCopies ∧ (returnedBook b).bookId = b.bookId) ∧
    (handleBookBorrowed [bookX] "X" = [bookX0] ∧
     handleBookReturned [bookX0] "X" = [bookX]) := by
  refine ⟨?_, ?_, ?_, ?_, by decide⟩
  · intro books bid hfind
    constructor
    · unfold handleBookBorrowed
      rw [hfind]
    · unfold handleBookReturned
      rw [hfind]
  · intro books bid b hfind hzero
    unfold handleBookBorrowed
    simp only [hfind]
    rw [if_pos (le_of_eq hzero)]
  · intro books bid b hfind hpos
    have hspec := borrowedBook_spec b
    refine ⟨?_, hspec.1, hspec.2.2.2.1, hspec.2.2.2.2, hspec.2.1, hspec.2.2.1⟩
    unfold handleBookBorrowed
    simp only [hfind]
    rw [if_neg (by omega)]
  · intro books bid b hfind hle
    have hspec := returnedBook_spec b hle
    refine ⟨?_, hspec.1, hspec.2.2.2.1, hspec.2.2.2.2, hspec.2.1, hspec.2.2.1⟩
    unfold handleBookReturned
    simp only [hfind]

/-- Witness for C3 applying the borrow postcondition at Scenario C's
book. -/
theorem C3_projector_postconditions_witness :
    [bookX].find? (fun x => x.bookId == "X") = some bookX ∧
    (0 : Int) < bookX.availableCopies ∧
    (handleBookBorrowed [bookX] "X" =
        replaceFirst (fun x => x.bookId == "X") (fun _ => borrowedBook bookX) [bookX] ∧
      (borrowedBook bookX).availableCopies = bookX.availableCopies - 1 ∧
      ((borrowedBook bookX).availableCopies = 0 → (borrowedBook bookX).status = "unavailable") ∧
      ((borrowedBook bookX).availableCopies ≠ 0 → (borrowedBook bookX).status = bookX.status) ∧
      (borrowedBook bookX).totalCopies = bookX.totalCopies ∧
      (borrowedBook bookX).bookId = bookX.bookId) :=
  ⟨by decide, by decide,
    C3_projector_postconditions.2.2.1 [bookX] "X" bookX (by decide) (by decide)⟩

/-- C1 fails on the code: with the category name "a+" the unescaped
pattern the resolver builds is the regex `a+`, which does not match the
stored name "a+" itself.  A user holding both an active subscription to
that category and an active subscription to book "b1" resolves for
("a+", "b1") to a single entry of subscriptionType `book` instead of
`both`, and resolving for ("a+", "b2") — a book the user does not follow
— yields no entry at all instead of one `category` entry. -/
theorem C1_dedup_escalation_failure :
    ((getTargetedSubscribers "a+" (some "b1")
        { cats := [catDoc "u1" "c1" "a+" true 0],
          books := [bookDoc "u1" "b1" "T1" true 0] }).map
      (fun t => (t.userId, t.subscriptionType)) = [("u1", SubType.book)]) ∧
    getTargetedSubscribers "a+" (some "b2")
        { cats := [catDoc "u1" "c1" "a+" true 0],
          books := [bookDoc "u1" "b1" "T1" true 0] } = [] := by
  decide

/-- C7 fails on the code: pass 1 is a regex test, not a case-insensitive
string comparison.  The query "a.c" includes the subscriber whose stored
category name is "abc" (the unescaped dot is a wildcard) although the
two names are not equal up to case, and the query "sci(fi" excludes the
subscriber whose stored name is exactly "sci(fi", because the
interpolated pattern is an invalid regex and the resolver lands in its
catch branch, returning the empty list. -/
theorem C7_exact_match_failure :
    ((getTargetedSubscribers "a.c" none
        { cats := [catDoc "u1" "c1" "abc" true 0], books := [] }).map
      (fun t => t.userId) = ["u1"]) ∧
    "a.c".data.map Char.toLower ≠ "abc".data.map Char.toLower ∧
    getTargetedSubscribers "sci(fi" none
        { cats := [catDoc "u2" "c2" "sci(fi" true 0], books := [] } = [] := by
  decide

/-! ## Notification fan-out lemmas -/

theorem length_createBatchNotifications (newId : Nat → String)
    (subs : List TargetedSubscriber) (nd : NotificationData) :
    (createBatchNotifications newId subs nd).length = subs.length := by
  simp [createBatchNotifications]

theorem map_ids_enumFrom (newId : Nat → String) (nd : NotificationData) (n : Nat)
    (subs : List TargetedSubscriber) :
    (((List.enumFrom n subs).map (fun p => notifRow newId nd p.1 p.2)).map
      (fun nrow => (nrow.userId, nrow.userEmail))) =
    subs.map (fun t => (t.userId, t.userEmail)) := by
  induction subs generalizing n with
  | nil => rfl
  | cons t ts ih =>
    simp only [List.enumFrom, List.map_cons]
    rw [ih (n + 1)]
    simp [notifRow]

theorem map_ids_createBatchNotifications (newId : Nat → String)
    (subs : List TargetedSubscriber) (nd : NotificationData) :
    ((createBatchNotifications newId subs nd).map
      (fun nrow => (nrow.userId, nrow.userEmail))) =
    subs.map (fun t => (t.userId, t.userEmail)) := by
  unfold createBatchNotifications
  rw [List.enum]
  exact map_ids_enumFrom newId nd 0 subs

/-- C4: for a `BOOK_ADDED` event whose resolved target set has size at
least one, the fan-out creates exactly one notification row per target
in a single `createBatchNotifications` call, each row carrying its
target's `userId` and `userEmail`; every target gets exactly one email
attempt; and the created rows are identical under any two email-outcome
oracles, so no email failure affects the batch or the other attempts. -/
theorem C4_fanout_count (newId : Nat → String)
    (emailOk emailOk2 : TargetedSubscriber → Bool)
    (s : SubStore) (d : BookAddedData)
    (hN : 1 ≤ (getTargetedSubscribers d.category (some d.bookId) s).length) :
    (handleBookAdded newId emailOk s d).notifications.length =
      (getTargetedSubscribers d.category (some d.bookId) s).length ∧
    (handleBookAdded newId emailOk s d).notifications =
      createBatchNotifications newId (getTargetedSubscribers d.category (some d.bookId) s)
        (bookAddedNotificationData d) ∧
    ((handleBookAdded newId emailOk s d).notifications.map
        (fun nrow => (nrow.userId, nrow.userEmail)) =
      (getTargetedSubscribers d.category (some d.bookId) s).map
        (fun t => (t.userId, t.userEmail))) ∧
    (handleBookAdded newId emailOk s d).emailAttempts.length =
      (getTargetedSubscribers d.category (some d.bookId) s).length ∧
    (handleBookAdded newId emailOk2 s d).notifications =
      (handleBookAdded newId emailOk s d).notifications := by
  have hne : ¬ (getTargetedSubscribers d.category (some d.bookId) s).length = 0 := by omega
  have hout : ∀ eo : TargetedSubscriber → Bool, handleBookAdded newId eo s d =
      { notifications := createBatchNotifications newId
          (getTargetedSubscribers d.category (some d.bookId) s)
          (bookAddedNotificationData d),
        emailAttempts := (getTargetedSubscribers d.category (some d.bookId) s).map eo,
        subscribersNotified := (getTargetedSubscribers d.category (some d.bookId) s).length,
        emailsSent := ((getTargetedSubscribers d.category (some d.bookId) s).map eo).count true } := by
    intro eo
    unfold handleBookAdded
    simp only [if_neg hne]
  rw [hout emailOk, hout emailOk2]
  exact ⟨length_createBatchNotifications _ _ _, rfl,
    map_ids_createBatchNotifications _ _ _, by simp, rfl⟩

/-- Witness for C4 on a two-target store (one category follower, one
book follower), with an all-failing email oracle against an
all-succeeding one. -/
theorem C4_fanout_count_witness :
    1 ≤ (getTargetedSubscribers "Sci" (some "b1")
          { cats := [catDoc "u1" "c1" "Sci" true 0],
            books := [bookDoc "u2" "b1" "T" true 0] }).length ∧
    ((handleBookAdded witnessId (fun _ => false)
        { cats := [catDoc "u1" "c1" "Sci" true 0],
          books := [bookDoc "u2" "b1" "T" true 0] }
        { bookId := "b1", title := "T", author := "A", category := "Sci",
          coverImageUrl := "" }).notifications.length =
      (getTargetedSubscribers "Sci" (some "b1")
        { cats := [catDoc "u1" "c1" "Sci" true 0],
          books := [bookDoc "u2" "b1" "T" true 0] }).length ∧
      (handleBookAdded witnessId (fun _ => false)
        { cats := [catDoc "u1" "c1" "Sci" true 0],
          books := [bookDoc "u2" "b1" "T" true 0] }
        { bookId := "b1", title := "T", author := "A", category := "Sci",
          coverImageUrl := "" }).notifications =
      createBatchNotifications witnessId
        (getTargetedSubscribers "Sci" (some "b1")
          { cats := [catDoc "u1" "c1" "Sci" true 0],
            books := [bookDoc "u2" "b1" "T" true 0] })
        (bookAddedNotificationData
          { bookId := "b1", title := "T", author := "A", category := "Sci",
            coverImageUrl := "" }) ∧
      ((handleBookAdded witnessId (fun _ => false)
        { cats := [catDoc "u1" "c1" "Sci" true 0],
          books := [bookDoc "u2" "b1" "T" true 0] }
        { bookId := "b1", title := "T", author := "A", category := "Sci",
          coverImageUrl := "" }).notifications.map
          (fun nrow => (nrow.userId, nrow.userEmail)) =
      (getTargetedSubscribers "Sci" (some "b1")
        { cats := [catDoc "u1" "c1" "Sci" true 0],
          books := [bookDoc "u2" "b1" "T" true 0] }).map
          (fun t => (t.userId, t.userEmail))) ∧
      (handleBookAdded witnessId (fun _ => false)
        { cats := [catDoc "u1" "c1" "Sci" true 0],
          books := [bookDoc "u2" "b1" "T" true 0] }
        { bookId := "b1", title := "T", author := "A", category := "Sci",
          coverImageUrl := "" }).emailAttempts.length =
      (getTargetedSubscribers "Sci" (some "b1")
        { cats := [catDoc "u1" "c1" "Sci" true 0],
          books := [bookDoc "u2" "b1" "T" true 0] }).length ∧
      (handleBookAdded witnessId (fun _ => true)
        { cats := [catDoc "u1" "c1" "Sci" true 0],
          books := [bookDoc "u2" "b1" "T" true 0] }
        { bookId := "b1", title := "T", author := "A", category := "Sci",
          coverImageUrl := "" }).notifications =
      (handleBookAdded witnessId (fun _ => false)
        { cats := [catDoc "u1" "c1" "Sci" true 0],
          books := [bookDoc "u2" "b1" "T" true 0] }
        { bookId := "b1", title := "T", author := "A", category := "Sci",
          coverImageUrl := "" }).notifications) :=
  ⟨by decide,
    C4_fanout_count witnessId (fun _ => false) (fun _ => true)
      { cats := [catDoc "u1" "c1" "Sci" true 0],
        books := [bookDoc "u2" "b1" "T" true 0] }
      { bookId := "b1", title := "T", author := "A", category := "Sci",
        coverImageUrl := "" }
      (by decide)⟩

/-! ## Subscription operation characterizations -/

theorem subCat_conflict (now : Nat) (r : CatSubReq) (s : SubStore) (ex : CategorySub)
    (h1 : r.userId ≠ "") (h2 : r.userEmail ≠ "") (h3 : r.categoryId ≠ "") (h4 : r.categoryName ≠ "")
    (hfind : s.cats.find? (catKey r.userId r.categoryId) = some ex)
    (hact : ex.isActive = true) :
    subscribeToCategory now r s = (409, s) := by
  unfold subscribeToCategory
  rw [if_neg (by simp [h1, h2, h3, h4])]
  simp only [hfind]
  rw [if_pos hact]

theorem subCat_reactivate (now : Nat) (r : CatSubReq) (s : SubStore) (ex : CategorySub)
    (h1 : r.userId ≠ "") (h2 : r.userEmail ≠ "") (h3 : r.categoryId ≠ "") (h4 : r.categoryName ≠ "")
    (hfind : s.cats.find? (catKey r.userId r.categoryId) = some ex)
    (hact : ex.isActive = false) :
    subscribeToCategory now r s =
      (200, { s with cats := (replaceFirst (catKey r.userId r.categoryId)
        (fun c => { c with isActive := true, subscribedAt := now }) s.cats) }) := by
  unfold subscribeToCategory
  rw [if_neg (by simp [h1, h2, h3, h4])]
  simp only [hfind]
  rw [if_neg (by simp [hact])]

theorem subCat_create (now : Nat) (r : CatSubReq) (s : SubStore)
    (h1 : r.userId ≠ "") (h2 : r.userEmail ≠ "") (h3 : r.categoryId ≠ "") (h4 : r.categoryName ≠ "")
    (hfind : s.cats.find? (catKey r.userId r.categoryId) = none) :
    subscribeToCategory now r s =
      (201, { s with cats := s.cats ++
        [{ userId := r.userId, userEmail := r.userEmail, userName := r.userName,
           categoryId := r.categoryId, categoryName := r.categoryName,
           isActive := true, subscribedAt := now }] }) := by
  unfold subscribeToCategory
  rw [if_neg (by simp [h1, h2, h3, h4])]
  simp only [hfind]

theorem unsubCat_notfound (u cid : String) (s : SubStore)
    (h1 : u ≠ "") (h3 : cid ≠ "")
    (hfind : s.cats.find? (catKey u cid) = none) :
    unsubscribeFromCategory u cid s = (404, s) := by
  unfold unsubscribeFromCategory
  rw [if_neg (by simp [h1, h3])]
  simp only [hfind]

theorem unsubCat_found (u cid : String) (s : SubStore) (ex : CategorySub)
    (h1 : u ≠ "") (h3 : cid ≠ "")
    (hfind : s.cats.find? (catKey u cid) = some ex) :
    unsubscribeFromCategory u cid s =
      (200, { s with cats := (replaceFirst (catKey u cid)
        (fun c => { c with isActive := false }) s.cats) }) := by
  unfold unsubscribeFromCategory
  rw [if_neg (by simp [h1, h3])]
  simp only [hfind]

theorem subBook_conflict (now : Nat) (r : BookSubReq) (s : SubStore) (ex : BookSub)
    (h1 : r.userId ≠ "") (h2 : r.userEmail ≠ "") (h3 : r.bookId ≠ "") (h4 : r.bookTitle ≠ "")
    (hfind : s.books.find? (bookKey r.userId r.bookId) = some ex)
    (hact : ex.isActive = true) :
    subscribeToBook now r s = (409, s) := by
  unfold subscribeToBook
  rw [if_neg (by simp [h1, h2, h3, h4])]
  simp only [hfind]
  rw [if_pos hact]

theorem subBook_reactivate (now : Nat) (r : BookSubReq) (s : SubStore) (ex : BookSub)
    (h1 : r.userId ≠ "") (h2 : r.userEmail ≠ "") (h3 : r.bookId ≠ "") (h4 : r.bookTitle ≠ "")
    (hfind : s.books.find? (bookKey r.userId r.bookId) = some ex)
    (hact : ex.isActive = false) :
    subscribeToBook now r s =
      (200, { s with books := (replaceFirst (bookKey r.userId r.bookId)
        (fun b => { b with isActive := true, subscribedAt := now }) s.books) }) := by
  unfold subscribeToBook
  rw [if_neg (by simp [h1, h2, h3, h4])]
  simp only [hfind]
  rw [if_neg (by simp [hact])]

theorem subBook_create (now : Nat) (r : BookSubReq) (s : SubStore)
    (h1 : r.userId ≠ "") (h2 : r.userEmail ≠ "") (h3 : r.bookId ≠ "") (h4 : r.bookTitle ≠ "")
    (hfind : s.books.find? (bookKey r.userId r.bookId) = none) :
    subscribeToBook now r s =
      (201, { s with books := s.books ++
        [{ userId := r.userId, userEmail := r.userEmail, userName := r.userName,
           bookId := r.bookId, bookTitle := r.bookTitle, bookCategory := r.bookCategory,
           isActive := true, subscribedAt := now }] }) := by
  unfold subscribeToBook
  rw [if_neg (by simp [h1, h2, h3, h4])]
  simp only [hfind]

theorem unsubBook_notfound (u bid : String) (s : SubStore)
    (h1 : u ≠ "") (h3 : bid ≠ "")
    (hfind : s.books.find? (bookKey u bid) = none) :
    unsubscribeFromBook u bid s = (404, s) := by
  unfold unsubscribeFromBook
  rw [if_neg (by simp [h1, h3])]
  simp only [hfind]

theorem unsubBook_found (u bid : String) (s : SubStore) (ex : BookSub)
    (h1 : u ≠ "") (h3 : bid ≠ "")
    (hfind : s.books.find? (bookKey u bid) = some ex) :
    unsubscribeFromBook u bid s =
      (200, { s with books := (replaceFirst (bookKey u bid)
        (fun b => { b with isActive := false }) s.books) }) := by
  unfold unsubscribeFromBook
  rw [if_neg (by simp [h1, h3])]
  simp only [hfind]

theorem find?_unique_mem {p : α → Bool} {l : List α} {c : α}
    (hwf : (l.filter p).length ≤ 1) (hc : c ∈ l) (hpc : p c = true) :
    l.find? p = some c := by
  obtain ⟨a0, ha0⟩ := find?_of_exists ⟨c, hc, hpc⟩
  have h1 : a0 = c :=
    unique_of_filter_le_one hwf (List.mem_of_find?_eq_some ha0)
      (List.find?_some ha0) hc hpc
  rw [ha0, h1]

theorem filter_replaceFirst_unique {p : α → Bool} {l : List α} {c : α} (f : α → α)
    (hwf : (l.filter p).length ≤ 1)
    (hfind : l.find? p = some c) (hpf : p (f c) = true) :
    (replaceFirst p f l).filter p = [f c] := by
  obtain ⟨l1, l2, hl, hl1, hpc, hrep⟩ := find?_split p l c hfind
  have h1 : l1.filter p = [] := by
    rw [List.filter_eq_nil_iff]
    intro x hx
    simp [hl1 x hx]
  have hflt : l.filter p = c :: l2.filter p := by
    rw [hl, List.filter_append, h1, List.filter_cons_of_pos hpc]
    simp
  have h2 : l2.filter p = [] := by
    rw [hflt, List.length_cons] at hwf
    have hlen : (l2.filter p).length = 0 := by omega
    exact List.eq_nil_of_length_eq_zero hlen
  rw [hrep f, List.filter_append, h1, List.filter_cons_of_pos hpf, h2]
  simp

/-- C5: upsert-with-reactivation and soft-delete semantics of the
subscription store, on any store whose rows for the given pair are
unique (the invariant the code maintains and its unique index enforces):
subscribe answers 409 exactly when an active row exists, reactivates the
inactive row refreshing `subscribedAt`, otherwise creates a new active
row; unsubscribe answers 404 exactly when no row exists, otherwise
marks the row inactive without deleting anything; symmetrically for
categories and books. -/
theorem C5_store_error_semantics
    (now : Nat) (s : SubStore) (u e un cid cn bid bt bc : String)
    (hu : u ≠ "") (he : e ≠ "") (hcid : cid ≠ "") (hcn : cn ≠ "")
    (hbid : bid ≠ "") (hbt : bt ≠ "")
    (hwc : (s.cats.filter (catKey u cid)).length ≤ 1)
    (hwb : (s.books.filter (bookKey u bid)).length ≤ 1) :
    ((∃ c ∈ s.cats, catKey u cid c = true ∧ c.isActive = true) →
      subscribeToCategory now ⟨u, e, un, cid, cn⟩ s = (409, s)) ∧
    ((subscribeToCategory now ⟨u, e, un, cid, cn⟩ s).1 = 409 ↔
      ∃ c ∈ s.cats, catKey u cid c = true ∧ c.isActive = true) ∧
    ((∃ c ∈ s.cats, catKey u cid c = true ∧ c.isActive = false) →
      (subscribeToCategory now ⟨u, e, un, cid, cn⟩ s).1 = 200 ∧
      (subscribeToCategory now ⟨u, e, un, cid, cn⟩ s).2.books = s.books ∧
      (subscribeToCategory now ⟨u, e, un, cid, cn⟩ s).2.cats.length = s.cats.length ∧
      ∃ c0 ∈ s.cats, catKey u cid c0 = true ∧
        (subscribeToCategory now ⟨u, e, un, cid, cn⟩ s).2.cats.filter (catKey u cid) =
          [{ c0 with isActive := true, subscribedAt := now }]) ∧
    ((∀ c ∈ s.cats, catKey u cid c = false) →
      subscribeToCategory now ⟨u, e, un, cid, cn⟩ s =
        (201, { s with cats := s.cats ++
          [{ userId := u, userEmail := e, userName := un, categoryId := cid,
             categoryName := cn, isActive := true, subscribedAt := now }] })) ∧
    ((∀ c ∈ s.cats, catKey u cid c = false) →
      unsubscribeFromCategory u cid s = (404, s)) ∧
    ((unsubscribeFromCategory u cid s).1 = 404 ↔ ∀ c ∈ s.cats, catKey u cid c = false) ∧
    ((∃ c ∈ s.cats, catKey u cid c = true) →
      (unsubscribeFromCategory u cid s).1 = 200 ∧
      (unsubscribeFromCategory u cid s).2.books = s.books ∧
      (unsubscribeFromCategory u cid s).2.cats.length = s.cats.length ∧
      ∀ c2 ∈ (unsubscribeFromCategory u cid s).2.cats.filter (catKey u cid),
        c2.isActive = false) ∧
    ((∃ b ∈ s.books, bookKey u bid b = true ∧ b.isActive = true) →
      subscribeToBook now ⟨u, e, un, bid, bt, bc⟩ s = (409, s)) ∧
    ((subscribeToBook now ⟨u, e, un, bid, bt, bc⟩ s).1 = 409 ↔
      ∃ b ∈ s.books, bookKey u bid b = true ∧ b.isActive = true) ∧
    ((∃ b ∈ s.books, bookKey u bid b = true ∧ b.isActive = false) →
      (subscribeToBook now ⟨u, e, un, bid, bt, bc⟩ s).1 = 200 ∧
      (subscribeToBook now ⟨u, e, un, bid, bt, bc⟩ s).2.cats = s.cats ∧
      (subscribeToBook now ⟨u, e, un, bid, bt, bc⟩ s).2.books.length = s.books.length ∧
      ∃ b0 ∈ s.books, bookKey u bid b0 = true ∧
        (subscribeToBook now ⟨u, e, un, bid, bt, bc⟩ s).2.books.filter (bookKey u bid) =
          [{ b0 with isActive := true, subscribedAt := now }]) ∧
    ((∀ b ∈ s.books, bookKey u bid b = false) →
      subscribeToBook now ⟨u, e, un, bid, bt, bc⟩ s =
        (201, { s with books := s.books ++
          [{ userId := u, userEmail := e, userName := un, bookId := bid,
             bookTitle := bt, bookCategory := bc, isActive := true, subscribedAt := now }] })) ∧
    ((∀ b ∈ s.books, bookKey u bid b = false) →
      unsubscribeFromBook u bid s = (404, s)) ∧
    ((unsubscribeFromBook u bid s).1 = 404 ↔ ∀ b ∈ s.books, bookKey u bid b = false) ∧
    ((∃ b ∈ s.books, bookKey u bid b = true) →
      (unsubscribeFromBook u bid s).1 = 200 ∧
      (unsubscribeFromBook u bid s).2.cats = s.cats ∧
      (unsubscribeFromBook u bid s).2.books.length = s.books.length ∧
      ∀ b2 ∈ (unsubscribeFromBook u bid s).2.books.filter (bookKey u bid),
        b2.isActive = false) := by
  refine ⟨?_, ?_, ?_, ?_, ?_, ?_, ?_, ?_, ?_, ?_, ?_, ?_, ?_, ?_⟩
  · rintro ⟨c, hc, hkey, hact⟩
    exact subCat_conflict now _ s c hu he hcid hcn (find?_unique_mem hwc hc hkey) hact
  · constructor
    · intro h409
      cases hfind : s.cats.find? (catKey u cid) with
      | none =>
        rw [subCat_create now _ s hu he hcid hcn hfind] at h409
        simp at h409
      | some ex =>
        by_cases hact : ex.isActive = true
        · exact ⟨ex, List.mem_of_find?_eq_some hfind, List.find?_some hfind, hact⟩
        · rw [subCat_reactivate now _ s ex hu he hcid hcn hfind
            (by simpa using hact)] at h409
          simp at h409
    · rintro ⟨c, hc, hkey, hact⟩
      rw [subCat_conflict now _ s c hu he hcid hcn (find?_unique_mem hwc hc hkey) hact]
  · rintro ⟨c, hc, hkey, hinact⟩
    have hfind := find?_unique_mem hwc hc hkey
    rw [subCat_reactivate now _ s c hu he hcid hcn hfind hinact]
    refine ⟨rfl, rfl, length_replaceFirst _ _ _, c, hc, hkey, ?_⟩
    exact filter_replaceFirst_unique _ hwc hfind hkey
  · intro hnone
    exact subCat_create now _ s hu he hcid hcn
      (List.find?_eq_none.mpr (fun x hx => by simp [hnone x hx]))
  · intro hnone
    exact unsubCat_notfound u cid s hu hcid
      (List.find?_eq_none.mpr (fun x hx => by simp [hnone x hx]))
  · constructor
    · intro h404
      intro c hc
      by_cases hkey : catKey u cid c = true
      · rw [unsubCat_found u cid s c hu hcid (find?_unique_mem hwc hc hkey)] at h404
        simp at h404
      · simpa using hkey
    · intro hnone
      rw [unsubCat_notfound u cid s hu hcid
        (List.find?_eq_none.mpr (fun x hx => by simp [hnone x hx]))]
  · rintro ⟨c, hc, hkey⟩
    have hfind := find?_unique_mem hwc hc hkey
    rw [unsubCat_found u cid s c hu hcid hfind]
    refine ⟨rfl, rfl, length_replaceFirst _ _ _, ?_⟩
    intro c2 hc2
    rw [filter_replaceFirst_unique _ hwc hfind hkey] at hc2
    simp at hc2
    rw [hc2]
  · rintro ⟨b, hb, hkey, hact⟩
    exact subBook_conflict now _ s b hu he hbid hbt (find?_unique_mem hwb hb hkey) hact
  · constructor
    · intro h409
      cases hfind : s.books.find? (bookKey u bid) with
      | none =>
        rw [subBook_create now _ s hu he hbid hbt hfind] at h409
        simp at h409
      | some ex =>
        by_cases hact : ex.isActive = true
        · exact ⟨ex, List.mem_of_find?_eq_some hfind, List.find?_some hfind, hact⟩
        · rw [subBook_reactivate now _ s ex hu he hbid hbt hfind
            (by simpa using hact)] at h409
          simp at h409
    · rintro ⟨b, hb, hkey, hact⟩
      rw [subBook_conflict now _ s b hu he hbid hbt (find?_unique_mem hwb hb hkey) hact]
  · rintro ⟨b, hb, hkey, hinact⟩
    have hfind := find?_unique_mem hwb hb hkey
    rw [subBook_reactivate now _ s b hu he hbid hbt hfind hinact]
    refine ⟨rfl, rfl, length_replaceFirst _ _ _, b, hb, hkey, ?_⟩
    exact filter_replaceFirst_unique _ hwb hfind hkey
  · intro hnone
    exact subBook_create now _ s hu he hbid hbt
      (List.find?_eq_none.mpr (fun x hx => by simp [hnone x hx]))
  · intro hnone
    exact unsubBook_notfound u bid s hu hbid
      (List.find?_eq_none.mpr (fun x hx => by simp [hnone x hx]))
  · constructor
    · intro h404
      intro b hb
      by_cases hkey : bookKey u bid b = true
      · rw [unsubBook_found u bid s b hu hbid (find?_unique_mem hwb hb hkey)] at h404
        simp at h404
      · simpa using hkey
    · intro hnone
      rw [unsubBook_notfound u bid s hu hbid
        (List.find?_eq_none.mpr (fun x hx => by simp [hnone x hx]))]
  · rintro ⟨b, hb, hkey⟩
    have hfind := find?_unique_mem hwb hb hkey
    rw [unsubBook_found u bid s b hu hbid hfind]
    refine ⟨rfl, rfl, length_replaceFirst _ _ _, ?_⟩
    intro b2 hb2
    rw [filter_replaceFirst_unique _ hwb hfind hkey] at hb2
    simp at hb2
    rw [hb2]

/-- Witness for C5: the conflict case at a concrete store holding an
active category row and an inactive book row for user u1. -/
theorem C5_store_error_semantics_witness :
    ("u1" : String) ≠ "" ∧ ("e@x" : String) ≠ "" ∧ ("c1" : String) ≠ "" ∧
    ("Sci" : String) ≠ "" ∧ ("b1" : String) ≠ "" ∧ ("T" : String) ≠ "" ∧
    (([catDoc "u1" "c1" "Sci" true 5].filter (catKey "u1" "c1")).length ≤ 1) ∧
    (([bookDoc "u1" "b1" "T" false 5].filter (bookKey "u1" "b1")).length ≤ 1) ∧
    (∃ c ∈ [catDoc "u1" "c1" "Sci" true 5], catKey "u1" "c1" c = true ∧ c.isActive = true) ∧
    subscribeToCategory 9 ⟨"u1", "e@x", "n", "c1", "Sci"⟩
      { cats := [catDoc "u1" "c1" "Sci" true 5], books := [bookDoc "u1" "b1" "T" false 5] } =
      (409, { cats := [catDoc "u1" "c1" "Sci" true 5],
              books := [bookDoc "u1" "b1" "T" false 5] }) :=
  ⟨by decide, by decide, by decide, by decide, by decide, by decide,
   by decide, by decide, by decide,
   (C5_store_error_semantics 9
      { cats := [catDoc "u1" "c1" "Sci" true 5], books := [bookDoc "u1" "b1" "T" false 5] }
      "u1" "e@x" "n" "c1" "Sci" "b1" "T" ""
      (by decide) (by decide) (by decide) (by decide) (by decide) (by decide)
      (by decide) (by decide)).1 (by decide)⟩

theorem find?_append_none {p : α → Bool} {l1 : List α} (l2 : List α)
    (h : ∀ x ∈ l1, p x = false) : (l1 ++ l2).find? p = l2.find? p := by
  induction l1 with
  | nil => rfl
  | cons a as ih =>
    rw [List.cons_append, List.find?_cons_of_neg _ (by simp [h a (by simp)])]
    exact ih (fun x hx => h x (by simp [hx]))

theorem replaceFirst_append_none {p : α → Bool} {f : α → α} {l1 : List α} (l2 : List α)
    (h : ∀ x ∈ l1, p x = false) :
    replaceFirst p f (l1 ++ l2) = l1 ++ replaceFirst p f l2 := by
  induction l1 with
  | nil => rfl
  | cons a as ih =>
    simp only [List.cons_append, replaceFirst, List.append_eq]
    rw [if_neg (by simp [h a (by simp)]), ih (fun x hx => h x (by simp [hx]))]

/-- C6: starting from a store with no row for the pair, subscribing,
unsubscribing and subscribing again leaves exactly one row for the pair,
active, with `subscribedAt` refreshed to the second subscribe's time; at
every reachable state the pair has at most one row (exactly one after
the first subscribe), the original rows are all kept (the collection is
only ever extended or updated in place, never shrunk), and the book
relation is untouched. -/
theorem C6_roundtrip (s : SubStore) (u e un cid cn : String) (t1 t2 : Nat)
    (hu : u ≠ "") (he : e ≠ "") (hcid : cid ≠ "") (hcn : cn ≠ "")
    (hnone : ∀ c ∈ s.cats, catKey u cid c = false) :
    subscribeToCategory t1 ⟨u, e, un, cid, cn⟩ s =
      (201, { s with cats := s.cats ++ [(⟨u, e, un, cid, cn, true, t1⟩ : CategorySub)] }) ∧
    unsubscribeFromCategory u cid
        { s with cats := s.cats ++ [(⟨u, e, un, cid, cn, true, t1⟩ : CategorySub)] } =
      (200, { s with cats := s.cats ++ [(⟨u, e, un, cid, cn, false, t1⟩ : CategorySub)] }) ∧
    subscribeToCategory t2 ⟨u, e, un, cid, cn⟩
        { s with cats := s.cats ++ [(⟨u, e, un, cid, cn, false, t1⟩ : CategorySub)] } =
      (200, { s with cats := s.cats ++ [(⟨u, e, un, cid, cn, true, t2⟩ : CategorySub)] }) ∧
    s.cats.filter (catKey u cid) = [] ∧
    (s.cats ++ [(⟨u, e, un, cid, cn, true, t1⟩ : CategorySub)]).filter (catKey u cid) =
      [(⟨u, e, un, cid, cn, true, t1⟩ : CategorySub)] ∧
    (s.cats ++ [(⟨u, e, un, cid, cn, false, t1⟩ : CategorySub)]).filter (catKey u cid) =
      [(⟨u, e, un, cid, cn, false, t1⟩ : CategorySub)] ∧
    (s.cats ++ [(⟨u, e, un, cid, cn, true, t2⟩ : CategorySub)]).filter (catKey u cid) =
      [(⟨u, e, un, cid, cn, true, t2⟩ : CategorySub)] := by
  have hkeyany : ∀ (b : Bool) (t : Nat),
      catKey u cid (⟨u, e, un, cid, cn, b, t⟩ : CategorySub) = true := by
    intro b t
    simp [catKey]
  have hfilnil : s.cats.filter (catKey u cid) = [] :=
    List.filter_eq_nil_iff.mpr (fun x hx => by simp [hnone x hx])
  have hfil : ∀ (b : Bool) (t : Nat),
      (s.cats ++ [(⟨u, e, un, cid, cn, b, t⟩ : CategorySub)]).filter (catKey u cid) =
        [(⟨u, e, un, cid, cn, b, t⟩ : CategorySub)] := by
    intro b t
    rw [List.filter_append, hfilnil, List.filter_cons_of_pos (hkeyany b t)]
    rfl
  have hfind : ∀ (b : Bool) (t : Nat),
      (s.cats ++ [(⟨u, e, un, cid, cn, b, t⟩ : CategorySub)]).find? (catKey u cid) =
        some (⟨u, e, un, cid, cn, b, t⟩ : CategorySub) := by
    intro b t
    rw [find?_append_none _ hnone]
    exact List.find?_cons_of_pos _ (hkeyany b t)
  refine ⟨?_, ?_, ?_, hfilnil, hfil true t1, hfil false t1, hfil true t2⟩
  · exact subCat_create t1 _ s hu he hcid hcn
      (List.find?_eq_none.mpr (fun x hx => by simp [hnone x hx]))
  · rw [unsubCat_found u cid _ _ hu hcid (hfind true t1)]
    rw [show ({ s with cats := s.cats ++ [(⟨u, e, un, cid, cn, true, t1⟩ : CategorySub)] } :
        SubStore).cats = s.cats ++ [(⟨u, e, un, cid, cn, true, t1⟩ : CategorySub)] from rfl]
    rw [replaceFirst_append_none _ hnone]
    unfold replaceFirst
    rw [if_pos (hkeyany true t1)]
  · rw [subCat_reactivate t2 _ _ _ hu he hcid hcn (hfind false t1) rfl]
    rw [show ({ s with cats := s.cats ++ [(⟨u, e, un, cid, cn, false, t1⟩ : CategorySub)] } :
        SubStore).cats = s.cats ++ [(⟨u, e, un, cid, cn, false, t1⟩ : CategorySub)] from rfl]
    rw [replaceFirst_append_none _ hnone]
    unfold replaceFirst
    rw [if_pos (hkeyany false t1)]

/-- Witness for C6 from the empty store. -/
theorem C6_roundtrip_witness :
    ("u1" : String) ≠ "" ∧ ("e@x" : String) ≠ "" ∧ ("c1" : String) ≠ "" ∧
    ("Sci" : String) ≠ "" ∧
    (∀ c ∈ ([] : List CategorySub), catKey "u1" "c1" c = false) ∧
    subscribeToCategory 1 ⟨"u1", "e@x", "n", "c1", "Sci"⟩ ⟨[], []⟩ =
      (201, { cats := [(⟨"u1", "e@x", "n", "c1", "Sci", true, 1⟩ : CategorySub)],
              books := [] }) :=
  ⟨by decide, by decide, by decide, by decide, by decide,
   (C6_roundtrip ⟨[], []⟩ "u1" "e@x" "n" "c1" "Sci" 1 2
      (by decide) (by decide) (by decide) (by decide) (by decide)).1⟩

/-- C9: unsubscribing a pair whose row exists but is already inactive
succeeds with 200 rather than 404, keeps every row (soft delete), and
leaves every row for the pair inactive — for categories and for books. -/
theorem C9_unsubscribe_idempotent (s : SubStore) (u cid bid : String)
    (hu : u ≠ "") (hcid : cid ≠ "") (hbid : bid ≠ "")
    (hcex : ∃ c ∈ s.cats, catKey u cid c = true)
    (hcinact : ∀ c ∈ s.cats, catKey u cid c = true → c.isActive = false)
    (hbex : ∃ b ∈ s.books, bookKey u bid b = true)
    (hbinact : ∀ b ∈ s.books, bookKey u bid b = true → b.isActive = false) :
    (unsubscribeFromCategory u cid s).1 = 200 ∧
    (unsubscribeFromCategory u cid s).2.cats.length = s.cats.length ∧
    (∀ c2 ∈ (unsubscribeFromCategory u cid s).2.cats,
      catKey u cid c2 = true → c2.isActive = false) ∧
    (unsubscribeFromBook u bid s).1 = 200 ∧
    (unsubscribeFromBook u bid s).2.books.length = s.books.length ∧
    (∀ b2 ∈ (unsubscribeFromBook u bid s).2.books,
      bookKey u bid b2 = true → b2.isActive = false) := by
  obtain ⟨c0, hc0, hk0⟩ := hcex
  obtain ⟨a0, ha0⟩ := find?_of_exists ⟨c0, hc0, hk0⟩
  obtain ⟨b0, hb0, hkb0⟩ := hbex
  obtain ⟨a1, ha1⟩ := find?_of_exists ⟨b0, hb0, hkb0⟩
  rw [unsubCat_found u cid s a0 hu hcid ha0, unsubBook_found u bid s a1 hu hbid ha1]
  refine ⟨rfl, length_replaceFirst _ _ _, ?_, rfl, length_replaceFirst _ _ _, ?_⟩
  · intro c2 hc2
    rcases mem_replaceFirst hc2 with h | ⟨a, _, _, rfl⟩
    · exact hcinact c2 h
    · intro _
      rfl
  · intro b2 hb2
    rcases mem_replaceFirst hb2 with h | ⟨a, _, _, rfl⟩
    · exact hbinact b2 h
    · intro _
      rfl

/-- Witness for C9 on a store holding one inactive category row and one
inactive book row for the pair. -/
theorem C9_unsubscribe_idempotent_witness :
    ("u1" : String) ≠ "" ∧ ("c1" : String) ≠ "" ∧ ("b1" : String) ≠ "" ∧
    (∃ c ∈ [catDoc "u1" "c1" "Sci" false 3], catKey "u1" "c1" c = true) ∧
    (∀ c ∈ [catDoc "u1" "c1" "Sci" false 3], catKey "u1" "c1" c = true → c.isActive = false) ∧
    (∃ b ∈ [bookDoc "u1" "b1" "T" false 3], bookKey "u1" "b1" b = true) ∧
    (∀ b ∈ [bookDoc "u1" "b1" "T" false 3], bookKey "u1" "b1" b = true → b.isActive = false) ∧
    (unsubscribeFromCategory "u1" "c1"
      { cats := [catDoc "u1" "c1" "Sci" false 3],
        books := [bookDoc "u1" "b1" "T" false 3] }).1 = 200 :=
  ⟨by decide, by decide, by decide, by decide, by decide, by decide, by decide,
   (C9_unsubscribe_idempotent
      { cats := [catDoc "u1" "c1" "Sci" false 3], books := [bookDoc "u1" "b1" "T" false 3] }
      "u1" "c1" "b1" (by decide) (by decide) (by decide)
      (by decide) (by decide) (by decide) (by decide)).1⟩

/-- C8: with the broker connection down, `publishBookBorrowed` returns a
plain local failure (`false`, nothing published) for every event, and a
valid borrow request still completes: the record is persisted with
status BORROWED, the caller gets 201, and no event reaches any
consumer. -/
theorem C8_publisher_isolation (env : BorrowEnv) (ps : PubState) (now : Nat)
    (newId : String) (req : BorrowReq) (borrows : List BorrowRec)
    (hu : req.userId ≠ "") (hb : req.bookId ≠ "") (he : req.email ≠ "")
    (hver : env.emailVerified = true)
    (hnodup : borrows.find? (fun b =>
      b.userId == req.userId && b.bookId == req.bookId && b.status == "BORROWED") = none)
    (hdown : ps.isConnected = false) :
    (∀ ev : BorrowedEvent, publishBookBorrowed ps ev = (false, [])) ∧
    (borrowBook env ps now newId req borrows).1 = 201 ∧
    (borrowBook env ps now newId req borrows).2.2 = [] ∧
    ∃ row : BorrowRec, (borrowBook env ps now newId req borrows).2.1 = borrows ++ [row] ∧
      row.status = "BORROWED" ∧ row.userId = req.userId ∧ row.bookId = req.bookId := by
  have hpub : ∀ ev : BorrowedEvent, publishBookBorrowed ps ev = (false, []) := by
    intro ev
    unfold publishBookBorrowed
    rw [if_pos (by simp [hdown])]
  have hBB : borrowBook env ps now newId req borrows =
      (201, borrows ++
        [{ borrowId := newId, userId := req.userId, bookId := req.bookId,
           email := req.email.toLower,
           borrowerName := if req.borrowerName = "" then emailLocalPart req.email else req.borrowerName,
           borrowDate := now,
           dueDate := (now : Int) + min (if req.borrowDuration = 0 then 14 else req.borrowDuration) 14,
           status := "BORROWED" }],
        (publishBookBorrowed ps
          { bookId := req.bookId, userId := req.userId, email := req.email.toLower,
            borrowerName := if req.borrowerName = "" then emailLocalPart req.email else req.borrowerName,
            bookTitle := env.bookTitleLookup.getD "Unknown Book",
            dueDate := (now : Int) + min (if req.borrowDuration = 0 then 14 else req.borrowDuration) 14,
            borrowId := newId, borrowDate := now }).2) := by
    unfold borrowBook
    rw [if_neg (by simp [hu, hb, he]), if_neg (by simp [hver])]
    simp only [hnodup]
  rw [hBB]
  refine ⟨hpub, rfl, ?_, ⟨_, rfl, rfl, rfl, rfl⟩⟩
  rw [hpub]

/-- Witness for C8: a concrete valid borrow with the broker down. -/
theorem C8_publisher_isolation_witness :
    ("u1" : String) ≠ "" ∧ ("b1" : String) ≠ "" ∧ ("E@x.io" : String) ≠ "" ∧
    (([] : List BorrowRec).find? (fun b =>
      b.userId == "u1" && b.bookId == "b1" && b.status == "BORROWED") = none) ∧
    (borrowBook ⟨true, some "T"⟩ ⟨false, false⟩ 0 "id1"
      ⟨"u1", "b1", "E@x.io", "Bob", 7⟩ []).1 = 201 ∧
    (borrowBook ⟨true, some "T"⟩ ⟨false, false⟩ 0 "id1"
      ⟨"u1", "b1", "E@x.io", "Bob", 7⟩ []).2.2 = [] :=
  ⟨by decide, by decide, by decide, by decide,
   (C8_publisher_isolation ⟨true, some "T"⟩ ⟨false, false⟩ 0 "id1"
      ⟨"u1", "b1", "E@x.io", "Bob", 7⟩ []
      (by decide) (by decide) (by decide) (by decide) (by decide) (by decide)).2.1,
   (C8_publisher_isolation ⟨true, some "T"⟩ ⟨false, false⟩ 0 "id1"
      ⟨"u1", "b1", "E@x.io", "Bob", 7⟩ []
      (by decide) (by decide) (by decide) (by decide) (by decide) (by decide)).2.2.1⟩

/-! ## Dedup map and resolver lemmas -/

theorem mem_mapSet {k : String} {v : TargetedSubscriber}
    {m : List (String × TargetedSubscriber)} {p : String × TargetedSubscriber}
    (hp : p ∈ mapSet k v m) : p ∈ m ∨ p = (k, v) := by
  induction m with
  | nil => simpa [mapSet] using hp
  | cons q rest ih =>
    obtain ⟨k2, v2⟩ := q
    unfold mapSet at hp
    by_cases hk : k2 = k
    · rw [if_pos hk] at hp
      rcases List.mem_cons.mp hp with rfl | h
      · exact Or.inr (by rw [hk])
      · exact Or.inl (by simp [h])
    · rw [if_neg hk] at hp
      rcases List.mem_cons.mp hp with rfl | h
      · exact Or.inl (by simp)
      · rcases ih h with h2 | h2
        · exact Or.inl (by simp [h2])
        · exact Or.inr h2

theorem mem_mapUpdate {k : String} {f : TargetedSubscriber → TargetedSubscriber}
    {m : List (String × TargetedSubscriber)} {p : String × TargetedSubscriber}
    (hp : p ∈ mapUpdate k f m) : p ∈ m ∨ ∃ v0, (k, v0) ∈ m ∧ p = (k, f v0) := by
  induction m with
  | nil => simp [mapUpdate] at hp
  | cons q rest ih =>
    obtain ⟨k2, v2⟩ := q
    unfold mapUpdate at hp
    by_cases hk : k2 = k
    · rw [if_pos hk] at hp
      rcases List.mem_cons.mp hp with rfl | h
      · exact Or.inr ⟨v2, by simp [hk], by rw [hk]⟩
      · exact Or.inl (by simp [h])
    · rw [if_neg hk] at hp
      rcases List.mem_cons.mp hp with rfl | h
      · exact Or.inl (by simp)
      · rcases ih h with h2 | ⟨v0, hv0, h3⟩
        · exact Or.inl (by simp [h2])
        · exact Or.inr ⟨v0, by simp [hv0], h3⟩

theorem catFold_inv (P : String × TargetedSubscriber → Prop) (cs : List CategorySub)
    (hentry : ∀ c ∈ cs, P (c.userId, catEntry c)) :
    ∀ m, (∀ p ∈ m, P p) → ∀ p ∈ cs.foldl catStep m, P p := by
  induction cs with
  | nil => intro m hm; exact hm
  | cons c cs ih =>
    intro m hm
    simp only [List.foldl_cons]
    refine ih (fun x hx => hentry x (by simp [hx])) _ ?_
    intro p hp
    replace hp : p ∈ mapSet c.userId (catEntry c) m := hp
    rcases mem_mapSet hp with h | rfl
    · exact hm p h
    · exact hentry c (by simp)

theorem bookFold_inv (P : String × TargetedSubscriber → Prop) (bs : List BookSub)
    (hentry : ∀ b ∈ bs, P (b.userId, bookEntry b))
    (hupd : ∀ b ∈ bs, ∀ v0, P (b.userId, v0) → P (b.userId, bookUpgrade b v0)) :
    ∀ m, (∀ p ∈ m, P p) → ∀ p ∈ bs.foldl bookStep m, P p := by
  induction bs with
  | nil => intro m hm; exact hm
  | cons b bs ih =>
    intro m hm
    simp only [List.foldl_cons]
    refine ih (fun x hx => hentry x (by simp [hx]))
      (fun x hx => hupd x (by simp [hx])) _ ?_
    intro p hp
    unfold bookStep at hp
    by_cases hhas : mapHas b.userId m = true
    · rw [if_pos hhas] at hp
      rcases mem_mapUpdate hp with h | ⟨v0, hv0, rfl⟩
      · exact hm p h
      · exact hupd b (by simp) v0 (hm _ hv0)
    · rw [if_neg hhas] at hp
      rcases mem_mapSet hp with h | rfl
      · exact hm p h
      · exact hentry b (by simp)

theorem resolver_follower_booksub (cn bid : String) (s : SubStore)
    (t : TargetedSubscriber) (ht : t ∈ getTargetedSubscribers cn (some bid) s)
    (hf : isBookFollower t = true) :
    ∃ b ∈ s.books, b.bookId = bid ∧ b.isActive = true ∧ b.userId = t.userId := by
  unfold getTargetedSubscribers at ht
  cases hreg : ciRegex cn with
  | none =>
    rw [hreg] at ht
    simp at ht
  | some r =>
    rw [hreg] at ht
    replace ht : t ∈ (if bid = "" then
        (s.cats.filter (fun c => ciTest r c.categoryName && c.isActive)).foldl catStep []
      else
        (s.books.filter (fun (b : BookSub) => b.bookId == bid && b.isActive)).foldl bookStep
          ((s.cats.filter (fun c => ciTest r c.categoryName && c.isActive)).foldl catStep [])).map
        Prod.snd := ht
    have hm1cat : ∀ p ∈ (s.cats.filter (fun c => ciTest r c.categoryName && c.isActive)).foldl
        catStep ([] : List (String × TargetedSubscriber)),
        p.2.subscriptionType = SubType.category := by
      refine catFold_inv (fun q => q.2.subscriptionType = SubType.category) _
        (fun c _ => rfl) [] ?_
      intro p hp
      simp at hp
    by_cases hbid : bid = ""
    · rw [if_pos hbid] at ht
      rcases List.mem_map.mp ht with ⟨p, hp, rfl⟩
      rw [isBookFollower, hm1cat p hp] at hf
      exact absurd hf (by decide)
    · rw [if_neg hbid] at ht
      rcases List.mem_map.mp ht with ⟨p, hp, rfl⟩
      have hfoll : ∀ q ∈ (s.books.filter (fun (b : BookSub) => b.bookId == bid && b.isActive)).foldl
          bookStep ((s.cats.filter (fun c => ciTest r c.categoryName && c.isActive)).foldl catStep []),
          isBookFollower q.2 = true →
            ∃ b ∈ s.books, b.bookId = bid ∧ b.isActive = true ∧ b.userId = q.1 := by
        refine bookFold_inv _ _ ?_ ?_ _ ?_
        · intro b hb _
          rcases List.mem_filter.mp hb with ⟨hmem, hcond⟩
          simp at hcond
          exact ⟨b, hmem, hcond.1, hcond.2, rfl⟩
        · intro b hb v0 _ _
          rcases List.mem_filter.mp hb with ⟨hmem, hcond⟩
          simp at hcond
          exact ⟨b, hmem, hcond.1, hcond.2, rfl⟩
        · intro q hq hfq
          rw [isBookFollower, hm1cat q hq] at hfq
          exact absurd hfq (by decide)
      have hkeyed : ∀ q ∈ (s.books.filter (fun (b : BookSub) => b.bookId == bid && b.isActive)).foldl
          bookStep ((s.cats.filter (fun c => ciTest r c.categoryName && c.isActive)).foldl catStep []),
          q.2.userId = q.1 := by
        refine bookFold_inv (fun q => q.2.userId = q.1) _
          (fun b _ => rfl) (fun b _ v0 h0 => h0) _ ?_
        refine catFold_inv (fun q => q.2.userId = q.1) _ (fun c _ => rfl) [] ?_
        intro q hq
        simp at hq
      rw [hkeyed p hp]
      exact hfoll p hp hf

theorem resolver_all_category_of_no_books (cn bid : String) (s : SubStore)
    (hfe : s.books.filter (fun (b : BookSub) => b.bookId == bid && b.isActive) = []) :
    ∀ t ∈ getTargetedSubscribers cn (some bid) s,
      t.subscriptionType = SubType.category := by
  intro t ht
  unfold getTargetedSubscribers at ht
  cases hreg : ciRegex cn with
  | none =>
    rw [hreg] at ht
    simp at ht
  | some r =>
    rw [hreg] at ht
    replace ht : t ∈ (if bid = "" then
        (s.cats.filter (fun c => ciTest r c.categoryName && c.isActive)).foldl catStep []
      else
        (s.books.filter (fun (b : BookSub) => b.bookId == bid && b.isActive)).foldl bookStep
          ((s.cats.filter (fun c => ciTest r c.categoryName && c.isActive)).foldl catStep [])).map
        Prod.snd := ht
    have hm1cat : ∀ p ∈ (s.cats.filter (fun c => ciTest r c.categoryName && c.isActive)).foldl
        catStep ([] : List (String × TargetedSubscriber)),
        p.2.subscriptionType = SubType.category := by
      refine catFold_inv (fun q => q.2.subscriptionType = SubType.category) _
        (fun c _ => rfl) [] ?_
      intro p hp
      simp at hp
    by_cases hbid : bid = ""
    · rw [if_pos hbid] at ht
      rcases List.mem_map.mp ht with ⟨p, hp, rfl⟩
      exact hm1cat p hp
    · rw [if_neg hbid, hfe] at ht
      rcases List.mem_map.mp ht with ⟨p, hp, rfl⟩
      exact hm1cat p hp

theorem snd_mem_enumFrom {l : List α} :
    ∀ {n : Nat} {p : Nat × α}, p ∈ List.enumFrom n l → p.2 ∈ l := by
  induction l with
  | nil =>
    intro n p hp
    simp [List.enumFrom] at hp
  | cons a as ih =>
    intro n p hp
    simp only [List.enumFrom] at hp
    rcases List.mem_cons.mp hp with rfl | h
    · simp
    · simp [ih h]

theorem mem_createBatchNotifications {newId : Nat → String} {nd : NotificationData}
    {lst : List TargetedSubscriber} {nrow : Notification}
    (h : nrow ∈ createBatchNotifications newId lst nd) :
    ∃ t ∈ lst, nrow.userId = t.userId ∧ nrow.userEmail = t.userEmail := by
  unfold createBatchNotifications at h
  rcases List.mem_map.mp h with ⟨p, hp, rfl⟩
  exact ⟨p.2, snd_mem_enumFrom hp, rfl, rfl⟩

/-- C10: `BOOK_UPDATED` fan-out is restricted to book followers: every
created row belongs to a resolved target of subscriptionType `book` or
`both`; a user with no active book subscription to the event's book
receives no row; and when no active book subscription to the book exists
at all, no rows are created. -/
theorem C10_book_updated_followers (newId : Nat → String) (s : SubStore)
    (d : BookUpdatedData) :
    (∀ nrow ∈ handleBookUpdated newId s d,
      ∃ t ∈ getTargetedSubscribers d.category (some d.bookId) s,
        isBookFollower t = true ∧ nrow.userId = t.userId ∧ nrow.userEmail = t.userEmail) ∧
    (∀ u : String,
      (∀ b ∈ s.books, b.userId = u → b.bookId = d.bookId → b.isActive = false) →
      ∀ nrow ∈ handleBookUpdated newId s d, nrow.userId ≠ u) ∧
    ((∀ b ∈ s.books, b.bookId = d.bookId → b.isActive = false) →
      handleBookUpdated newId s d = []) := by
  have parta : ∀ nrow ∈ handleBookUpdated newId s d,
      ∃ t ∈ getTargetedSubscribers d.category (some d.bookId) s,
        isBookFollower t = true ∧ nrow.userId = t.userId ∧ nrow.userEmail = t.userEmail := by
    intro nrow hnrow
    replace hnrow : nrow ∈ (if ((getTargetedSubscribers d.category (some d.bookId) s).filter
          isBookFollower).length = 0 then ([] : List Notification)
        else createBatchNotifications newId
          ((getTargetedSubscribers d.category (some d.bookId) s).filter isBookFollower)
          (bookUpdatedNotificationData d)) := hnrow
    by_cases hlen : ((getTargetedSubscribers d.category (some d.bookId) s).filter
        isBookFollower).length = 0
    · rw [if_pos hlen] at hnrow
      simp at hnrow
    · rw [if_neg hlen] at hnrow
      rcases mem_createBatchNotifications hnrow with ⟨t, htf, h1, h2⟩
      rcases List.mem_filter.mp htf with ⟨ht, hft⟩
      exact ⟨t, ht, hft, h1, h2⟩
  refine ⟨parta, ?_, ?_⟩
  · intro u hu nrow hnrow hequ
    rcases parta nrow hnrow with ⟨t, ht, hft, h1, _⟩
    rcases resolver_follower_booksub d.category d.bookId s t ht hft with
      ⟨b, hbmem, hbid2, hact, hbu⟩
    have hfalse : b.isActive = false := hu b hbmem (by rw [hbu, ← h1, hequ]) hbid2
    rw [hact] at hfalse
    simp at hfalse
  · intro hall
    have hfe : s.books.filter (fun (b : BookSub) => b.bookId == d.bookId && b.isActive) = [] := by
      rw [List.filter_eq_nil_iff]
      intro b hb
      simp
      intro h2
      exact hall b hb h2
    have hcat := resolver_all_category_of_no_books d.category d.bookId s hfe
    have hfilnil : (getTargetedSubscribers d.category (some d.bookId) s).filter
        isBookFollower = [] := by
      rw [List.filter_eq_nil_iff]
      intro t ht
      rw [isBookFollower, hcat t ht]
      decide
    show (if ((getTargetedSubscribers d.category (some d.bookId) s).filter
          isBookFollower).length = 0 then ([] : List Notification)
        else createBatchNotifications newId
          ((getTargetedSubscribers d.category (some d.bookId) s).filter isBookFollower)
          (bookUpdatedNotificationData d)) = []
    rw [hfilnil]
    rfl

/-- Witness for C10: a category-only store produces no BOOK_UPDATED
rows. -/
theorem C10_book_updated_followers_witness :
    (∀ b ∈ ([] : List BookSub), b.bookId = "b1" → b.isActive = false) ∧
    handleBookUpdated witnessId { cats := [catDoc "u1" "c1" "Sci" true 0], books := [] }
      { bookId := "b1", title := "T", author := "A", category := "Sci" } = [] :=
  ⟨by decide,
   (C10_book_updated_followers witnessId
      { cats := [catDoc "u1" "c1" "Sci" true 0], books := [] }
      { bookId := "b1", title := "T", author := "A", category := "Sci" }).2.2 (by decide)⟩
